import Mathlib

/-!
Verification of the Hue bridge client and light/room control manager
(`src/hue_mcp/hue_client.py`, `src/hue_mcp/light_manager.py`,
`src/hue_mcp/config.py`) against its natural-language specification.

The Python sources are shallowly embedded: JSON documents become the
inductive `JValue`, raised exceptions become `Except HueErr`, the HTTP
layer underneath `_safe_request` becomes a function from attempt index
to observed outcome, and the bridge behind the manager becomes a record
of responses per endpoint.  Wall-clock times and sleep durations are
rational numbers.
-/

/-- A Python/JSON value as the bridge client handles it: the result of
`response.json()`, light-info documents, and nested dictionaries.
Numbers are modelled as rationals. -/
inductive JValue : Type where
  | null : JValue
  | bool (b : Bool) : JValue
  | num (q : ℚ) : JValue
  | str (s : String) : JValue
  | arr (items : List JValue) : JValue
  | obj (fields : List (String × JValue)) : JValue

/-- Python `d.get(key)` for a dictionary value: `none` when the key is absent
or the value is not a dictionary (the sources only apply it to dictionaries). -/
def JValue.get : JValue → String → Option JValue
  | .obj fields, key => fields.lookup key
  | _, _ => none

/-- Python `d.get(key, default)`. -/
def JValue.getD (v : JValue) (key : String) (default : JValue) : JValue :=
  (v.get key).getD default

/-- Substring test on character lists, for Python `in` over strings. -/
def charsContain (needle hay : List Char) : Bool :=
  (List.range (hay.length + 1)).any (fun n => needle.isPrefixOf (hay.drop n))

/-- Python `key in v` as `_safe_request` uses it on `result[0]`: key lookup on a
dictionary, membership on a list, substring test on a string (`in` on other
operands raises `TypeError`; the sources only reach dictionaries here). -/
def JValue.hasKey (v : JValue) (key : String) : Bool :=
  match v with
  | .obj fields => fields.any (fun p => p.1 == key)
  | .arr items => items.any (fun x => match x with | .str s => s == key | _ => false)
  | .str s => charsContain key.toList s.toList
  | _ => false

/-- Python truthiness, used on `light_info.get("state", {}).get("on", False)`. -/
def JValue.truthy : JValue → Bool
  | .null => false
  | .bool b => b
  | .num q => ! (q == 0)
  | .str s => ! (s == "")
  | .arr items => ! items.isEmpty
  | .obj fields => ! fields.isEmpty

/-- Python `str(v)` for the scalar values interpolated into error messages
(the sources only interpolate strings here; container rendering is elided). -/
def JValue.scalarStr : JValue → String
  | .str s => s
  | .bool true => "True"
  | .bool false => "False"
  | .num q => toString q
  | .null => "None"
  | _ => "<object>"

/-- Python `len(v)` for the dictionary returned by `get_lights` (and lists). -/
def JValue.length : JValue → Nat
  | .obj fields => fields.length
  | .arr items => items.length
  | _ => 0

/-- The exception an operation of the client or manager can raise, by its
Python class (`hue_client.py` lines 16-43 declare the `Hue*` hierarchy;
`HTTPStatusError` is the exception `httpx` raises from `raise_for_status`,
`ValueError` and `TypeError` are the builtins).  Each constructor carries
the message the source formats (`httpStatusError` carries the offending
status; the `httpx`-generated message text is abbreviated). -/
inductive HueErr : Type where
  | hueError (msg : String)
  | connectionError (msg : String)
  | timeoutError (msg : String)
  | validationError (msg : String)
  | rateLimitError (msg : String)
  | httpStatusError (status : Nat)
  | valueError (msg : String)
  | typeError (msg : String)
deriving DecidableEq, Repr

/-- Python `type(e).__name__`, the error-kind tag the manager stores under
`data.error_type`. -/
def HueErr.typeName : HueErr → String
  | .hueError _ => "HueError"
  | .connectionError _ => "HueConnectionError"
  | .timeoutError _ => "HueTimeoutError"
  | .validationError _ => "HueValidationError"
  | .rateLimitError _ => "HueRateLimitError"
  | .httpStatusError _ => "HTTPStatusError"
  | .valueError _ => "ValueError"
  | .typeError _ => "TypeError"

/-- Python `str(e)`, the message the manager stores in its failure result. -/
def HueErr.message : HueErr → String
  | .hueError m => m
  | .connectionError m => m
  | .timeoutError m => m
  | .validationError m => m
  | .rateLimitError m => m
  | .httpStatusError status => "HTTP status error: " ++ toString status
  | .valueError m => m
  | .typeError m => m

/-! ## The request executor `AsyncHueClient._safe_request`
(`hue_client.py` lines 144-215).

One loop iteration issues one underlying HTTP call; what that call does is
modelled by a function from the attempt index to an `AttemptOutcome`.
The executor returns the parsed result or the raised exception, together
with the number of underlying HTTP calls made and the list of back-off
sleep durations (in seconds) in order. -/

/-- Python `method.upper()` (`String.toUpper`, written over the character
list so that it evaluates structurally). -/
def pyUpper (s : String) : String := String.mk (s.data.map Char.toUpper)

/-- Python `s.lower()` (`String.toLower`, written over the character list so
that it evaluates structurally). -/
def pyLower (s : String) : String := String.mk (s.data.map Char.toLower)

/-- What one underlying HTTP call observes: a completed exchange with a
status code and parsed body, an `httpx.TimeoutException`, or another
`httpx.RequestError`. -/
inductive AttemptOutcome : Type where
  | resp (status : Nat) (body : JValue)
  | timeout
  | requestError

/-- The description text of a bridge error envelope
(`result[0]["error"].get("description", "Unknown error")`). -/
def errorDescription (first : JValue) : String :=
  match (first.getD "error" .null).get "description" with
  | some v => v.scalarStr
  | none => "Unknown error"

/-- `_safe_request` lines 176-199: interpretation of a 2xx body.  A list whose
first element has an `error` entry is a bridge-reported error; a PUT response
that is a list with a dictionary head containing `success` returns that head;
everything else is returned unmodified. -/
def processBody (isPut : Bool) (result : JValue) : Except HueErr JValue :=
  match result with
  | .arr (first :: rest) =>
    if first.hasKey "error" then
      .error (.hueError ("Hue API error: " ++ errorDescription first))
    else if isPut then
      match first with
      | .obj fields =>
        if (JValue.obj fields).hasKey "success" then .ok (.obj fields)
        else .ok (.arr (.obj fields :: rest))
      | _ => .ok (.arr (first :: rest))
    else .ok (.arr (first :: rest))
  | v => .ok v

/-- The retry loop of `_safe_request`, from a given attempt index with a given
number of loop iterations left (`remaining` is `retries - attempt`; the
function is entered with `attempt = 0`, `remaining = retries`).  Returns the
outcome, the number of HTTP calls issued, and the back-off sleeps performed. -/
def safeRequestFrom (endpoint method : String) (retries : Nat)
    (outcomes : Nat → AttemptOutcome) :
    Nat → Nat → Except HueErr JValue × Nat × List ℚ
  | _, 0 =>
    -- the for-loop is exhausted: line 215
    (.error (.connectionError "Unexpected error in request handling"), 0, [])
  | attempt, remaining + 1 =>
    if pyUpper method == "GET" || pyUpper method == "PUT" then
      match outcomes attempt with
      | .resp status body =>
        if status == 429 then
          -- rate limited: sleep 1.0 * 2^attempt and retry (lines 164-167)
          let (res, calls, sleeps) :=
            safeRequestFrom endpoint method retries outcomes (attempt + 1) remaining
          (res, calls + 1, ((1 : ℚ) * 2 ^ attempt) :: sleeps)
        else if status == 404 then
          (.error (.validationError ("Resource not found: " ++ endpoint)), 1, [])
        else if status == 401 then
          (.error (.connectionError "Invalid username/authentication"), 1, [])
        else if !(200 ≤ status && status ≤ 299) then
          -- response.raise_for_status() raises httpx.HTTPStatusError, which is
          -- neither a TimeoutException nor a RequestError: it is not caught by
          -- the two except clauses and propagates out of the loop (line 173)
          (.error (.httpStatusError status), 1, [])
        else
          (processBody (pyUpper method == "PUT") body, 1, [])
      | .timeout =>
        if remaining == 0 then
          (.error (.timeoutError
            ("Request timeout after " ++ toString retries ++ " attempts")), 1, [])
        else
          let (res, calls, sleeps) :=
            safeRequestFrom endpoint method retries outcomes (attempt + 1) remaining
          (res, calls + 1, (((1 : ℚ) / 2) * 2 ^ attempt) :: sleeps)
      | .requestError =>
        if remaining == 0 then
          (.error (.connectionError
            ("Request failed after " ++ toString retries ++ " attempts")), 1, [])
        else
          let (res, calls, sleeps) :=
            safeRequestFrom endpoint method retries outcomes (attempt + 1) remaining
          (res, calls + 1, (((1 : ℚ) / 2) * 2 ^ attempt) :: sleeps)
    else
      -- raise ValueError(f"Unsupported method: {method}") before any HTTP call;
      -- a ValueError is caught by neither except clause (line 161)
      (.error (.valueError ("Unsupported method: " ++ method)), 0, [])

/-- `AsyncHueClient._safe_request(endpoint, method, data, retries)`.  The
`data` document only affects the bridge, which is abstracted into
`outcomes`, so it does not appear here. -/
def safeRequest (endpoint method : String) (retries : Nat)
    (outcomes : Nat → AttemptOutcome) : Except HueErr JValue × Nat × List ℚ :=
  safeRequestFrom endpoint method retries outcomes 0 retries

/-- An HTTP layer whose every call reports status 500 with an empty body. -/
def alwaysStatus500 : Nat → AttemptOutcome := fun _ => .resp 500 .null

/-- An HTTP layer whose every call reports status 429. -/
def alwaysStatus429 : Nat → AttemptOutcome := fun _ => .resp 429 .null

/-- 429 on the first call, then 200 with the given body on every later call. -/
def status429Then200 (body : JValue) : Nat → AttemptOutcome :=
  fun attempt => if attempt == 0 then .resp 429 .null else .resp 200 body

/-! ## Configuration and the rate limiter
(`config.py` lines 12-93, `hue_client.py` lines 46-102). -/

/-- The configuration fields the rate limiter reads (`config.py` lines 35-40):
`light_rate_limit` (default 10 operations/second) and `group_rate_limit`
(default 1.0 second minimum interval).  The remaining fields (bridge address,
credential, timeouts, pool limits) do not enter the modelled state. -/
structure HueConfig where
  light_rate_limit : ℚ := 10
  group_rate_limit : ℚ := 1
deriving DecidableEq, Repr

/-- The configuration loaded at startup with no environment overrides. -/
def defaultHueConfig : HueConfig := {}

/-- The mutable state of one `HueRateLimiter` instance (`hue_client.py`
lines 49-59): the light token bucket and the group minimum-interval gate.
Clock readings are rationals. -/
structure HueRateLimiter where
  light_tokens : ℚ
  light_max_tokens : ℚ
  light_refill_rate : ℚ
  light_last_refill : ℚ
  group_last_call : ℚ
deriving DecidableEq, Repr

/-- `HueRateLimiter.__init__` run at clock time `now`: a full bucket sized by
`config.light_rate_limit`, and `group_last_call = 0`. -/
def HueRateLimiter.init (cfg : HueConfig) (now : ℚ) : HueRateLimiter :=
  { light_tokens := cfg.light_rate_limit
    light_max_tokens := cfg.light_rate_limit
    light_refill_rate := cfg.light_rate_limit
    light_last_refill := now
    group_last_call := 0 }

/-- The refill step of `acquire_light_token` (`hue_client.py` lines 64-72 and
80-86): add `elapsed * refill_rate` tokens, capped at the bucket capacity,
and record the refill time. -/
def HueRateLimiter.refillAt (st : HueRateLimiter) (now : ℚ) : HueRateLimiter :=
  let elapsed := now - st.light_last_refill
  let tokens_to_add := elapsed * st.light_refill_rate
  { st with
    light_tokens := min st.light_max_tokens (st.light_tokens + tokens_to_add)
    light_last_refill := now }

/-- The wait-and-refill loop of `acquire_light_token` (lines 75-89): while
fewer than 1 token is available, sleep `1 / refill_rate` seconds and refill at
the clock reading observed after the sleep; then consume one token.  The
successive post-sleep clock readings are supplied as `times`; `none` means
the loop was still waiting when the supplied readings ran out (the code
would keep sleeping). -/
def HueRateLimiter.acquireLoop : HueRateLimiter → List ℚ → Option HueRateLimiter
  | st, [] =>
    if st.light_tokens < 1 then none
    else some { st with light_tokens := st.light_tokens - 1 }
  | st, t :: rest =>
    if st.light_tokens < 1 then HueRateLimiter.acquireLoop (st.refillAt t) rest
    else some { st with light_tokens := st.light_tokens - 1 }

/-- `HueRateLimiter.acquire_light_token`, entered at clock time `now`, with
`laterTimes` the clock readings observed after each in-loop sleep. -/
def HueRateLimiter.acquire_light_token (st : HueRateLimiter) (now : ℚ)
    (laterTimes : List ℚ) : Option HueRateLimiter :=
  HueRateLimiter.acquireLoop (st.refillAt now) laterTimes

/-- `HueRateLimiter.acquire_group_token` entered at clock time `now`
(lines 91-102): if less than `group_rate_limit` has elapsed since the last
granted call, sleep the remainder; then record the new last-call time (the
sleep is modelled as exact, so the post-sleep clock reads
`group_last_call + group_rate_limit`). -/
def HueRateLimiter.acquire_group_token (cfg : HueConfig) (st : HueRateLimiter)
    (now : ℚ) : HueRateLimiter :=
  if now - st.group_last_call < cfg.group_rate_limit then
    { st with group_last_call := st.group_last_call + cfg.group_rate_limit }
  else
    { st with group_last_call := now }

/-- `AsyncHueClient.__init__` (`hue_client.py` line 120) constructs a brand-new
`HueRateLimiter` for the client instance: `self.rate_limiter = HueRateLimiter()`.
No argument ties it to any existing limiter. -/
def AsyncHueClient.init_rate_limiter (cfg : HueConfig) (now : ℚ) : HueRateLimiter :=
  HueRateLimiter.init cfg now

/-- Every public `LightManager` operation opens its own client with
`async with AsyncHueClient() as client` (`light_manager.py` lines 247, 380,
427, 445, 461), so the rate limiter any one manager operation consults is the
one constructed by that `AsyncHueClient.__init__` call, regardless of any
earlier operations in the process. -/
def LightManager.op_rate_limiter (cfg : HueConfig) (constructionTime : ℚ) :
    HueRateLimiter :=
  AsyncHueClient.init_rate_limiter cfg constructionTime

/-! ## The light/room control manager `LightManager`
(`light_manager.py`). -/

/-- `LightControlRequest` (`light_manager.py` lines 15-42).  Optional fields
keep their pydantic defaults: `brightness = 200`, `color_temp = 366`, the
five color components `None`.  The pydantic range constraints on supplied
values are enforced by the boundary validation layer, out of scope here. -/
structure LightControlRequest where
  light_id : Int
  action : String
  brightness : Option Int := some 200
  color_temp : Option Int := some 366
  red : Option Int := none
  green : Option Int := none
  blue : Option Int := none
  hue : Option Int := none
  saturation : Option Int := none
deriving DecidableEq, Repr

/-- `RoomControlRequest` (lines 45-72), with the same defaults. -/
structure RoomControlRequest where
  room : String
  action : String
  brightness : Option Int := some 200
  color_temp : Option Int := some 366
  red : Option Int := none
  green : Option Int := none
  blue : Option Int := none
  hue : Option Int := none
  saturation : Option Int := none
deriving DecidableEq, Repr

/-- The chromaticity pair `_rgb_to_xy` (lines 156-184) computes.  The
computation is IEEE-754 floating point (gamma exponent 2.4), whose numeric
output affects no stated property, so the embedding records the conversion
symbolically by the RGB triple it was applied to. -/
structure XY where
  red : Int
  green : Int
  blue : Int
deriving DecidableEq, Repr

/-- `LightManager._rgb_to_xy(red, green, blue)`, recorded symbolically
(see `XY`). -/
def LightManager.rgb_to_xy (red green blue : Int) : XY :=
  { red := red, green := green, blue := blue }

/-- The outbound light-state document `_build_light_state` constructs
(lines 186-240): a dictionary over the recognized keys, `none` meaning the
key is absent. -/
structure LightState where
  «on» : Option Bool := none
  bri : Option Int := none
  ct : Option Int := none
  xy : Option XY := none
  hue : Option Int := none
  sat : Option Int := none
deriving DecidableEq, Repr

/-- `light_info.get("type", "").lower()`: the lowered device type string
(`.lower()` on a non-string would raise; the bridge supplies strings). -/
def lightTypeOf (light_info : JValue) : String :=
  match light_info.get "type" with
  | some (.str s) => pyLower s
  | _ => ""

/-- `capabilities.control` of a light-info document:
`light_info.get("capabilities", {}).get("control", {})`. -/
def controlCapsOf (light_info : JValue) : JValue :=
  (light_info.getD "capabilities" (.obj [])).getD "control" (.obj [])

/-- `LightManager._supports_color_temp` (lines 104-129): the type string
contains one of four known substrings, or the control capabilities contain
the key `ct`. -/
def LightManager.supports_color_temp (light_info : JValue) : Bool :=
  let light_type := lightTypeOf light_info
  let color_temp_types := ["color temperature light", "extended color light",
    "color light", "tunable white light"]
  if color_temp_types.any (fun t => charsContain t.toList light_type.toList) then
    true
  else if (controlCapsOf light_info).hasKey "ct" then
    true
  else
    false

/-- `LightManager._supports_color` (lines 131-154): the type string contains
one of two known substrings, or the control capabilities contain any of
`xy`, `hue`, `sat`. -/
def LightManager.supports_color (light_info : JValue) : Bool :=
  let light_type := lightTypeOf light_info
  let color_types := ["extended color light", "color light"]
  if color_types.any (fun t => charsContain t.toList light_type.toList) then
    true
  else if ["xy", "hue", "sat"].any (fun k => (controlCapsOf light_info).hasKey k) then
    true
  else
    false

/-- `LightManager._build_light_state` (lines 186-240).  For action `"on"`:
set `on`, then `bri` when a brightness is given, then pick at most one color
representation with priority RGB > hue/saturation > color temperature, gated
by the light's capabilities; for `"off"`: `{on: false}`; for `"toggle"`: the
empty state (resolved by the caller); anything else raises a validation
error. -/
def LightManager.build_light_state (action : String)
    (brightness color_temp red green blue hue saturation : Option Int)
    (light_info : Option JValue) : Except HueErr LightState :=
  if action == "on" then
    let state0 : LightState := { «on» := some true }
    let state1 : LightState :=
      match brightness with
      | some b => { state0 with bri := some b }
      | none => state0
    match light_info with
    | some info =>
      if LightManager.supports_color info then
        match red, green, blue with
        | some r, some g, some b =>
          .ok { state1 with xy := some (LightManager.rgb_to_xy r g b) }
        | _, _, _ =>
          match hue, saturation with
          | some h, some s => .ok { state1 with hue := some h, sat := some s }
          | _, _ =>
            match color_temp with
            | some ctv =>
              if LightManager.supports_color_temp info then
                .ok { state1 with ct := some ctv }
              else .ok state1
            | none => .ok state1
      else
        match color_temp with
        | some ctv =>
          if LightManager.supports_color_temp info then
            .ok { state1 with ct := some ctv }
          else .ok state1
        | none => .ok state1
    | none => .ok state1
  else if action == "off" then
    .ok { «on» := some false }
  else if action == "toggle" then
    .ok {}
  else
    .error (.validationError
      ("Invalid action '" ++ action ++ "'. Must be 'on', 'off', or 'toggle'."))

/-- `LightManager._validate_light_id` (lines 91-94). -/
def LightManager.validate_light_id (light_id : Int) : Except HueErr Unit :=
  if light_id < 1 || light_id > 17 then
    .error (.validationError
      ("Light ID " ++ toString light_id ++ " is not valid. Must be 1-17."))
  else
    .ok ()

/-- The static room mapping `ROOM_MAPPINGS` (`config.py` lines 102-115):
every room maps to a list of light ids except `"all"`, which maps to the
all-lights group id 0. -/
inductive RoomEntry : Type where
  | lights (ids : List Int)
  | group (id : Int)
deriving DecidableEq, Repr

/-- `config.ROOM_MAPPINGS`. -/
def ROOM_MAPPINGS : List (String × RoomEntry) :=
  [("kitchen", .lights [10, 12, 13, 17]),
   ("bedroom", .lights [1, 4]),
   ("office", .lights [7]),
   ("basement", .lights [5, 6, 14, 15, 16]),
   ("living_room", .lights [3]),
   ("all", .group 0)]

/-- Python rendering of a list of strings, for the unknown-room message. -/
def pyStrList (items : List String) : String :=
  "[" ++ String.intercalate ", " (items.map (fun s => "'" ++ s ++ "'")) ++ "]"

/-- `LightManager._validate_room` (lines 96-102). -/
def LightManager.validate_room (room : String) : Except HueErr Unit :=
  if (ROOM_MAPPINGS.map Prod.fst).contains room then
    .ok ()
  else
    .error (.validationError
      ("Unknown room '" ++ room ++ "'. Available rooms: "
        ++ pyStrList (ROOM_MAPPINGS.map Prod.fst)))

/-! ## Manager results and operations.

`HueResponse` (lines 75-81) is one pydantic class whose `data` dictionary
takes three shapes in the sources: a bridge payload, the
`{"error_type": ...}` tag of a caught exception, and the room aggregate
whose `details` list nests per-light `HueResponse` objects.  The nesting is
modelled with a data parameter closed by `RespData`. -/

/-- `HueResponse` with its `data` payload type abstracted. -/
structure HueResponseG (d : Type) : Type where
  success : Bool
  message : String
  data : Option d := none
  lights_affected : Option (List Int) := none

/-- One entry of a room fan-out `results` list (lines 328-335): either
`{"light_id", "result", "success"}` from a completed per-light call, or
`{"light_id", "error", "success": False}` from the inner exception handler. -/
inductive PerLightG (d : Type) : Type where
  | result_entry (light_id : Int) (result : HueResponseG d) (success : Bool)
  | error_entry (light_id : Int) (error : String) (success : Bool)

/-- The three shapes of the `data` dictionary of a `HueResponse`. -/
inductive RespData : Type where
  | payload (v : JValue)
  | errInfo (error_type : String)
  | room (successful_operations : Nat) (failed_operations : Nat)
      (details : List (PerLightG RespData))

/-- `HueResponse`, the manager's result model. -/
abbrev HueResponse := HueResponseG RespData

/-- One room fan-out entry. -/
abbrev PerLight := PerLightG RespData

/-- The `success` entry of a fan-out result dictionary (both shapes carry
one). -/
def PerLightG.success : PerLightG d → Bool
  | .result_entry _ _ s => s
  | .error_entry _ _ s => s

/-- The `light_id` entry of a fan-out result dictionary. -/
def PerLightG.light_id : PerLightG d → Int
  | .result_entry i _ _ => i
  | .error_entry i _ _ => i

/-- The `except Exception` wrapper every public manager operation ends with
(e.g. lines 293-297): a caught exception `e` becomes
`HueResponse(success=False, message=str(e), data={"error_type":
type(e).__name__})`; a normal result passes through. -/
def toHueResponse : Except HueErr HueResponse → HueResponse
  | .ok r => r
  | .error e =>
    { success := false, message := e.message
      data := some (.errInfo e.typeName), lights_affected := none }

/-- The bridge as observed through one `AsyncHueClient`: the response or
raised exception of each client operation the manager uses.  (Each client
method wraps `_safe_request` at a fixed endpoint; the manager only sees the
returned payload or the raised exception.) -/
structure BridgeBehavior where
  get_light_state : Int → Except HueErr JValue
  control_light : Int → LightState → Except HueErr JValue
  control_group : Int → LightState → Except HueErr JValue
  get_lights : Except HueErr JValue
  get_config : Except HueErr JValue

/-- One HTTP exchange with the bridge, as the manager triggers it: the trace
element recorded for each client call. -/
inductive BridgeCall : Type where
  | get_light_state (light_id : Int)
  | control_light (light_id : Int) (state : LightState)
  | control_group (group_id : Int) (action : LightState)
  | get_lights
  | get_config
deriving DecidableEq, Repr

/-- Resolution of the `"toggle"` action inside `control_light`
(lines 252-254): read `light_info.get("state", {}).get("on", False)` and
substitute `"off"` when it is truthy, else `"on"`. -/
def LightManager.toggle_resolved (light_info : JValue) : String :=
  let current_on := (light_info.getD "state" (.obj [])).getD "on" (.bool false)
  if current_on.truthy then "off" else "on"

/-- The try-block of `LightManager.control_light` (lines 244-291): validate
the id, fetch the light info, resolve `"toggle"`, build the state, issue the
PUT, and shape the success response.  Returns what the block would return or
raise, and the bridge calls made. -/
def LightManager.control_light_run (b : BridgeBehavior)
    (req : LightControlRequest) : Except HueErr HueResponse × List BridgeCall :=
  match LightManager.validate_light_id req.light_id with
  | .error e => (.error e, [])
  | .ok _ =>
    match b.get_light_state req.light_id with
    | .error e => (.error e, [.get_light_state req.light_id])
    | .ok light_info =>
      let effective :=
        if req.action == "toggle" then LightManager.toggle_resolved light_info
        else req.action
      match LightManager.build_light_state effective req.brightness
          req.color_temp req.red req.green req.blue req.hue req.saturation
          (some light_info) with
      | .error e => (.error e, [.get_light_state req.light_id])
      | .ok state =>
        match b.control_light req.light_id state with
        | .error e =>
          (.error e,
           [.get_light_state req.light_id, .control_light req.light_id state])
        | .ok result =>
          (.ok { success := true
                 message := "Light " ++ toString req.light_id ++ " "
                   ++ req.action ++ " successfully"
                 data := some (.payload result)
                 lights_affected := some [req.light_id] },
           [.get_light_state req.light_id, .control_light req.light_id state])

/-- `LightManager.control_light`: the try-block wrapped by the
catch-everything handler (lines 293-297). -/
def LightManager.control_light (b : BridgeBehavior)
    (req : LightControlRequest) : HueResponse × List BridgeCall :=
  let r := LightManager.control_light_run b req
  (toHueResponse r.1, r.2)

/-- The try-block of `LightManager.get_light_status` (lines 424-434). -/
def LightManager.get_light_status_run (b : BridgeBehavior) (light_id : Int) :
    Except HueErr HueResponse × List BridgeCall :=
  match LightManager.validate_light_id light_id with
  | .error e => (.error e, [])
  | .ok _ =>
    match b.get_light_state light_id with
    | .error e => (.error e, [.get_light_state light_id])
    | .ok state =>
      (.ok { success := true
             message := "Retrieved status for light " ++ toString light_id
             data := some (.payload state) },
       [.get_light_state light_id])

/-- `LightManager.get_light_status` (lines 422-440). -/
def LightManager.get_light_status (b : BridgeBehavior) (light_id : Int) :
    HueResponse × List BridgeCall :=
  let r := LightManager.get_light_status_run b light_id
  (toHueResponse r.1, r.2)

/-- The try-block of `LightManager.list_all_lights` (lines 444-450). -/
def LightManager.list_all_lights_run (b : BridgeBehavior) :
    Except HueErr HueResponse × List BridgeCall :=
  match b.get_lights with
  | .error e => (.error e, [.get_lights])
  | .ok lights =>
    (.ok { success := true
           message := "Retrieved " ++ toString lights.length ++ " lights"
           data := some (.payload lights) },
     [.get_lights])

/-- `LightManager.list_all_lights` (lines 442-456). -/
def LightManager.list_all_lights (b : BridgeBehavior) :
    HueResponse × List BridgeCall :=
  let r := LightManager.list_all_lights_run b
  (toHueResponse r.1, r.2)

/-- The try-block of `LightManager.discover_bridge` (lines 460-477). -/
def LightManager.discover_bridge_run (b : BridgeBehavior) :
    Except HueErr HueResponse × List BridgeCall :=
  match b.get_config with
  | .error e => (.error e, [.get_config])
  | .ok config_data =>
    let bridge_info : JValue := .obj
      [("name", config_data.getD "name" (.str "Unknown")),
       ("swversion", config_data.getD "swversion" (.str "Unknown")),
       ("apiversion", config_data.getD "apiversion" (.str "Unknown")),
       ("mac", config_data.getD "mac" (.str "Unknown")),
       ("bridge_id", config_data.getD "bridgeid" (.str "Unknown")),
       ("model_id", config_data.getD "modelid" (.str "Unknown"))]
    (.ok { success := true
           message := "Bridge connection successful"
           data := some (.payload bridge_info) },
     [.get_config])

/-- `LightManager.discover_bridge` (lines 458-483). -/
def LightManager.discover_bridge (b : BridgeBehavior) :
    HueResponse × List BridgeCall :=
  let r := LightManager.discover_bridge_run b
  (toHueResponse r.1, r.2)

/-- One task of the room fan-out (`control_single_light`, lines 313-335):
construct a `LightControlRequest` from the room request for one light id and
run `control_light`; the inner handler converts any exception into an
error entry.  Pydantic re-validates the constructed request; of its
constraints only the `light_id` range (1-17) can fail here, the other
fields coming from the already boundary-validated room request. -/
def LightManager.room_task (b : BridgeBehavior) (req : RoomControlRequest)
    (light_id : Int) : PerLight × List BridgeCall :=
  if light_id < 1 || 17 < light_id then
    (.error_entry light_id
      "1 validation error for LightControlRequest: light_id" false, [])
  else
    let lreq : LightControlRequest :=
      { light_id := light_id, action := req.action
        brightness := req.brightness, color_temp := req.color_temp
        red := req.red, green := req.green, blue := req.blue
        hue := req.hue, saturation := req.saturation }
    let r := LightManager.control_light b lreq
    (.result_entry light_id r.1 r.1.success, r.2)

/-- The `asyncio.gather` fan-out over a room's light ids (lines 337-339).
The semaphore caps concurrency at 5 but does not change any per-light
result; `gather` returns the results in task order, so the fan-out is
modelled sequentially (the interleaving of the traces of concurrent calls
is not determined; their concatenation in task order is the
representative recorded here). -/
def LightManager.room_fanout (b : BridgeBehavior) (req : RoomControlRequest) :
    List Int → List PerLight × List BridgeCall
  | [] => ([], [])
  | id :: rest =>
    let p := LightManager.room_task b req id
    let ps := LightManager.room_fanout b req rest
    (p.1 :: ps.1, p.2 ++ ps.2)

/-- The group action document built by `_control_all_lights_group`
(lines 382-403): color selection is unconditional RGB > hue/sat > color
temperature (no capability query on this path), `"toggle"` degrades to off,
and an unrecognized action leaves the document empty. -/
def LightManager.group_action (req : RoomControlRequest) : LightState :=
  if req.action == "on" then
    let a0 : LightState := { «on» := some true }
    let a1 : LightState :=
      match req.brightness with
      | some brv => { a0 with bri := some brv }
      | none => a0
    match req.red, req.green, req.blue with
    | some r, some g, some bl =>
      { a1 with xy := some (LightManager.rgb_to_xy r g bl) }
    | _, _, _ =>
      match req.hue, req.saturation with
      | some h, some s => { a1 with hue := some h, sat := some s }
      | _, _ =>
        match req.color_temp with
        | some ctv => { a1 with ct := some ctv }
        | none => a1
  else if req.action == "off" then
    { «on» := some false }
  else if req.action == "toggle" then
    -- documented simplification: the broadcast path reads no light state
    -- and turns everything off
    { «on» := some false }
  else
    {}

/-- The try-block of `_control_all_lights_group` (lines 379-414). -/
def LightManager.control_all_lights_group_run (b : BridgeBehavior)
    (req : RoomControlRequest) : Except HueErr HueResponse × List BridgeCall :=
  let action := LightManager.group_action req
  match b.control_group 0 action with
  | .error e => (.error e, [.control_group 0 action])
  | .ok result =>
    (.ok { success := true
           message := "All lights " ++ req.action ++ " successfully"
           data := some (.payload result)
           lights_affected :=
             some [1, 2, 3, 4, 5, 6, 7, 8, 9, 10, 11, 12, 13, 14, 15, 16, 17] },
     [.control_group 0 action])

/-- `LightManager._control_all_lights_group` (lines 375-420), with its own
catch-everything handler. -/
def LightManager.control_all_lights_group (b : BridgeBehavior)
    (req : RoomControlRequest) : HueResponse × List BridgeCall :=
  let r := LightManager.control_all_lights_group_run b req
  (toHueResponse r.1, r.2)

/-- The try-block of `LightManager.control_room` (lines 301-367): validate
the room, delegate `"all"` to the group path, otherwise fan out over the
room's light ids and aggregate. -/
def LightManager.control_room_run (b : BridgeBehavior)
    (req : RoomControlRequest) : Except HueErr HueResponse × List BridgeCall :=
  match LightManager.validate_room req.room with
  | .error e => (.error e, [])
  | .ok _ =>
    if req.room == "all" then
      let r := LightManager.control_all_lights_group b req
      (.ok r.1, r.2)
    else
      match ROOM_MAPPINGS.lookup req.room with
      | some (.lights light_ids) =>
        let fan := LightManager.room_fanout b req light_ids
        let results := fan.1
        let successful := results.filter (fun r => r.success)
        let failed := results.filter (fun r => ! r.success)
        (.ok { success := failed.length == 0
               message := "Controlled " ++ toString successful.length ++ "/"
                 ++ toString light_ids.length ++ " lights in " ++ req.room
               lights_affected := some light_ids
               data := some (.room successful.length failed.length results) },
         fan.2)
      | _ =>
        -- only "all" maps to a bare group id, and it is handled above;
        -- iterating an int would raise TypeError into the outer handler
        (.error (.typeError "'int' object is not iterable"), [])

/-- `LightManager.control_room` (lines 299-373). -/
def LightManager.control_room (b : BridgeBehavior)
    (req : RoomControlRequest) : HueResponse × List BridgeCall :=
  let r := LightManager.control_room_run b req
  (toHueResponse r.1, r.2)

/-! ## Concrete fixtures used to instantiate the theorems. -/

/-- A light-info document of an `"Extended color light"` that is currently
on, with `ct` and `xy` control capabilities. -/
def extendedColorLightInfo : JValue :=
  .obj [("type", .str "Extended color light"),
        ("state", .obj [("on", .bool true), ("bri", .num 200)]),
        ("capabilities", .obj [("control", .obj
          [("ct", .obj []), ("xy", .obj [])])])]

/-- A light-info document of a `"Dimmable light"` that is currently off,
with no color capabilities. -/
def dimmableLightInfo : JValue :=
  .obj [("type", .str "Dimmable light"),
        ("state", .obj [("on", .bool false), ("bri", .num 100)]),
        ("capabilities", .obj [("control", .obj [])])]

/-- The PUT echo of a successful state change. -/
def successEcho : JValue := .obj [("success", .obj [])]

/-- A bridge on which every operation succeeds, every light reporting the
given info document. -/
def healthyBridge (info : JValue) : BridgeBehavior :=
  { get_light_state := fun _ => .ok info
    control_light := fun _ _ => .ok successEcho
    control_group := fun _ _ => .ok successEcho
    get_lights := .ok (.obj [("1", extendedColorLightInfo)])
    get_config := .ok (.obj [("name", .str "Hue")]) }

/-- A bridge on which every operation raises the given error. -/
def failingBridge (e : HueErr) : BridgeBehavior :=
  { get_light_state := fun _ => .error e
    control_light := fun _ _ => .error e
    control_group := fun _ _ => .error e
    get_lights := .error e
    get_config := .error e }

/-- A bridge on which lights 14-17 are unreachable and the rest behave:
on the basement room (lights 5, 6, 14, 15, 16) exactly 3 of 5 per-light
operations fail. -/
def basementDownBridge : BridgeBehavior :=
  { get_light_state := fun id =>
      if 14 ≤ id then .error (.connectionError "bridge unreachable")
      else .ok extendedColorLightInfo
    control_light := fun _ _ => .ok successEcho
    control_group := fun _ _ => .ok successEcho
    get_lights := .ok (.obj [])
    get_config := .ok (.obj []) }

/-- The state built for an "on" request with RGB (0,0,255) against an
extended color light: `xy` only, no `hue`/`sat`/`ct`. -/
def xyOnlyState : LightState :=
  { «on» := some true, bri := some 200,
    xy := some (LightManager.rgb_to_xy 0 0 255) }

/-! ## Theorems. -/

/-- The wait-and-refill loop keeps the token count within the bucket bounds:
entered with at most `light_max_tokens` tokens, a completed pass leaves at
least 0 and at most `light_max_tokens` tokens, and never changes the
capacity. -/
theorem HueRateLimiter.acquireLoop_bounds (times : List ℚ) :
    ∀ st st' : HueRateLimiter, st.light_tokens ≤ st.light_max_tokens →
      HueRateLimiter.acquireLoop st times = some st' →
      0 ≤ st'.light_tokens ∧ st'.light_tokens ≤ st'.light_max_tokens ∧
        st'.light_max_tokens = st.light_max_tokens := by
  induction times with
  | nil =>
    intro st st' hle h
    rw [HueRateLimiter.acquireLoop] at h
    by_cases hlt : st.light_tokens < 1
    · simp [hlt] at h
    · rw [if_neg hlt] at h
      cases h
      refine ⟨?_, ?_, rfl⟩ <;> simp <;> linarith [not_lt.mp hlt]
  | cons t rest ih =>
    intro st st' hle h
    rw [HueRateLimiter.acquireLoop] at h
    by_cases hlt : st.light_tokens < 1
    · rw [if_pos hlt] at h
      have hre : (st.refillAt t).light_tokens ≤ (st.refillAt t).light_max_tokens := by
        simp [HueRateLimiter.refillAt]
      have hmax : (st.refillAt t).light_max_tokens = st.light_max_tokens := rfl
      obtain ⟨h0, h1, h2⟩ := ih (st.refillAt t) st' hre h
      exact ⟨h0, h1, h2.trans hmax⟩
    · rw [if_neg hlt] at h
      cases h
      refine ⟨?_, ?_, rfl⟩ <;> simp <;> linarith [not_lt.mp hlt]

/-- C9: the light token bucket keeps its count within bounds.  Assuming
`0 ≤ light_tokens ≤ light_max_tokens` before a call, a completed
`acquire_light_token` (for any entry time and any post-sleep clock readings)
leaves a token count that is again at least 0 and at most the configured
capacity: the refill is capped at the capacity and a token is consumed only
once at least one is available. -/
theorem acquire_light_token_bounds (st : HueRateLimiter) (now : ℚ)
    (times : List ℚ) (st' : HueRateLimiter)
    (hpos : 0 ≤ st.light_tokens)
    (hcap : st.light_tokens ≤ st.light_max_tokens)
    (h : st.acquire_light_token now times = some st') :
    0 ≤ st'.light_tokens ∧ st'.light_tokens ≤ st.light_max_tokens := by
  rw [HueRateLimiter.acquire_light_token] at h
  have hre : (st.refillAt now).light_tokens ≤ (st.refillAt now).light_max_tokens := by
    simp [HueRateLimiter.refillAt]
  obtain ⟨h0, h1, h2⟩ := HueRateLimiter.acquireLoop_bounds times _ _ hre h
  have hmax : (st.refillAt now).light_max_tokens = st.light_max_tokens := rfl
  rw [h2, hmax] at h1
  exact ⟨h0, h1⟩

/-- Witness for C9: the freshly initialized limiter (10 tokens, capacity 10)
acquired once at time 0 leaves 9 tokens, within the bounds. -/
theorem acquire_light_token_bounds_witness :
    (0 : ℚ) ≤ (HueRateLimiter.init defaultHueConfig 0).light_tokens ∧
    (HueRateLimiter.init defaultHueConfig 0).light_tokens ≤
      (HueRateLimiter.init defaultHueConfig 0).light_max_tokens ∧
    (HueRateLimiter.init defaultHueConfig 0).acquire_light_token 0 []
      = some (HueRateLimiter.mk 9 10 10 0 0) ∧
    (0 ≤ (HueRateLimiter.mk 9 10 10 0 0).light_tokens ∧
      (HueRateLimiter.mk 9 10 10 0 0).light_tokens ≤
        (HueRateLimiter.init defaultHueConfig 0).light_max_tokens) :=
  ⟨by norm_num [HueRateLimiter.init, defaultHueConfig],
   by norm_num [HueRateLimiter.init, defaultHueConfig],
   by norm_num [HueRateLimiter.acquire_light_token, HueRateLimiter.acquireLoop,
     HueRateLimiter.refillAt, HueRateLimiter.init, defaultHueConfig],
   acquire_light_token_bounds (HueRateLimiter.init defaultHueConfig 0) 0 []
     (HueRateLimiter.mk 9 10 10 0 0)
     (by norm_num [HueRateLimiter.init, defaultHueConfig])
     (by norm_num [HueRateLimiter.init, defaultHueConfig])
     (by norm_num [HueRateLimiter.acquire_light_token, HueRateLimiter.acquireLoop,
       HueRateLimiter.refillAt, HueRateLimiter.init, defaultHueConfig])⟩

/-- C1 (evaluating the code at the failing input): two back-to-back manager
control operations do not share rate-limiter state.  The first operation's
limiter is the one its own `AsyncHueClient.__init__` constructed
(`op_rate_limiter`); after the first operation consumes a token it holds 9
tokens, yet the limiter the second operation reads is again the fresh
10-token initial state, not that mutated state: the counters the two calls
read and mutate are different states, so the configured ceilings do not
bound the combined rate of the two operations. -/
theorem rate_limiter_state_not_shared :
    LightManager.op_rate_limiter defaultHueConfig 0
      = HueRateLimiter.init defaultHueConfig 0 ∧
    (LightManager.op_rate_limiter defaultHueConfig 0).acquire_light_token 0 []
      = some (HueRateLimiter.mk 9 10 10 0 0) ∧
    LightManager.op_rate_limiter defaultHueConfig 0
      ≠ HueRateLimiter.mk 9 10 10 0 0 :=
  ⟨rfl,
   by norm_num [LightManager.op_rate_limiter, AsyncHueClient.init_rate_limiter,
     HueRateLimiter.acquire_light_token, HueRateLimiter.acquireLoop,
     HueRateLimiter.refillAt, HueRateLimiter.init, defaultHueConfig],
   by norm_num [LightManager.op_rate_limiter, AsyncHueClient.init_rate_limiter,
     HueRateLimiter.init, defaultHueConfig, HueRateLimiter.mk.injEq]⟩

/-- Evaluation of `pyUpper` on the GET method literal. -/
theorem pyUpper_GET : pyUpper "GET" = "GET" := by decide

/-- String literal comparison of the two method names. -/
theorem GET_beq_PUT : ("GET" == "PUT") = false := by decide

/-- Counterexample to C2 as stated: with every call answering status 500
(non-2xx, none of 429/404/401) and `retries = 3`, `_safe_request` makes
exactly one underlying HTTP call, sleeps no backoff, and fails with the
uncaught `httpx.HTTPStatusError` from `raise_for_status` — not with a
Connection-typed error after 3 attempts, as the claim requires. -/
theorem non2xx_counterexample :
    safeRequest "http://bridge/lights" "GET" 3 alwaysStatus500
      = (.error (.httpStatusError 500), 1, []) ∧
    HueErr.typeName (.httpStatusError 500) ≠ "HueConnectionError" ∧
    (1 : Nat) ≠ 3 := by
  refine ⟨?_, by decide, by decide⟩
  norm_num [safeRequest, safeRequestFrom, alwaysStatus500, pyUpper_GET]

/-- C2 (amended): for every response whose status is non-2xx and not one of
429, 404, 401, the request executor fails immediately on that first
response: exactly one underlying HTTP call, no backoff sleep, no retry, and
the failure is the `HTTPStatusError` raised by `raise_for_status` (which
neither `except` clause catches), not a Connection-typed error. -/
theorem non2xx_fails_immediately (endpoint method : String)
    (outs : Nat → AttemptOutcome) (status : Nat) (body : JValue) (retries : Nat)
    (hm : pyUpper method = "GET" ∨ pyUpper method = "PUT")
    (h0 : outs 0 = .resp status body)
    (hs : ¬(200 ≤ status ∧ status ≤ 299))
    (h429 : status ≠ 429) (h404 : status ≠ 404) (h401 : status ≠ 401)
    (hr : 0 < retries) :
    safeRequest endpoint method retries outs
      = (.error (.httpStatusError status), 1, []) ∧
    (HueErr.httpStatusError status).typeName ≠ "HueConnectionError" := by
  refine ⟨?_, by simp [HueErr.typeName]⟩
  cases retries with
  | zero => omega
  | succ n =>
    have hcond : (pyUpper method == "GET" || pyUpper method == "PUT") = true := by
      rcases hm with hm | hm <;> rw [hm] <;> decide
    simp only [safeRequest, safeRequestFrom, h0]
    rw [if_pos hcond, if_neg (by simp [h429]), if_neg (by simp [h404]),
      if_neg (by simp [h401]), if_pos (by simp; omega)]

/-- Witness for C2 (amended): a persistent-500 HTTP layer at `retries = 3`. -/
theorem non2xx_fails_immediately_witness :
    (pyUpper "GET" = "GET" ∨ pyUpper "GET" = "PUT") ∧
    alwaysStatus500 0 = .resp 500 .null ∧
    ¬(200 ≤ 500 ∧ 500 ≤ 299) ∧
    (500 : Nat) ≠ 429 ∧ (500 : Nat) ≠ 404 ∧ (500 : Nat) ≠ 401 ∧ (0 : Nat) < 3 ∧
    (safeRequest "http://bridge/config" "GET" 3 alwaysStatus500
        = (.error (.httpStatusError 500), 1, []) ∧
      (HueErr.httpStatusError 500).typeName ≠ "HueConnectionError") :=
  ⟨Or.inl pyUpper_GET, rfl, by decide, by decide, by decide, by decide, by decide,
   non2xx_fails_immediately "http://bridge/config" "GET" alwaysStatus500 500
     .null 3 (Or.inl pyUpper_GET) rfl (by decide) (by decide) (by decide)
     (by decide) (by decide)⟩

/-- C6: a 429 response makes the executor sleep `1.0 * 2^attempt` seconds
and retry without raising, up to `retries` attempts (with all attempts
rate-limited, `retries = 3` makes exactly 3 calls with sleeps 1, 2, 4 and
only then fails through the defensive fallback); in particular a 429
followed by a 200 yields the 200 payload with exactly 2 underlying HTTP
calls and the single backoff sleep `1.0 * 2^0 = 1`. -/
theorem rate_limited_retry (endpoint : String) (body : JValue)
    (outs : Nat → AttemptOutcome)
    (h0 : outs 0 = .resp 429 .null) (h1 : outs 1 = .resp 200 body)
    (hbody : processBody false body = .ok body) :
    safeRequest endpoint "GET" 3 outs = (.ok body, 2, [1]) ∧
    safeRequest endpoint "GET" 3 alwaysStatus429
      = (.error (.connectionError "Unexpected error in request handling"),
         3, [1, 2, 4]) := by
  constructor
  · norm_num [safeRequest, safeRequestFrom, h0, h1, hbody, pyUpper_GET, GET_beq_PUT]
  · norm_num [safeRequest, safeRequestFrom, alwaysStatus429, pyUpper_GET, GET_beq_PUT]

/-- Witness for C6: 429 then 200 with a plain success payload. -/
theorem rate_limited_retry_witness :
    status429Then200 successEcho 0 = .resp 429 .null ∧
    status429Then200 successEcho 1 = .resp 200 successEcho ∧
    processBody false successEcho = .ok successEcho ∧
    (safeRequest "http://bridge/lights" "GET" 3 (status429Then200 successEcho)
        = (.ok successEcho, 2, [1]) ∧
      safeRequest "http://bridge/lights" "GET" 3 alwaysStatus429
        = (.error (.connectionError "Unexpected error in request handling"),
           3, [1, 2, 4])) :=
  ⟨rfl, rfl, rfl,
   rate_limited_retry "http://bridge/lights" successEcho
     (status429Then200 successEcho) rfl rfl rfl⟩

/-- Out-of-range ids fail `_validate_light_id` with the validation error. -/
theorem validate_light_id_out_of_range (i : Int) (h : i < 1 ∨ i > 17) :
    LightManager.validate_light_id i
      = .error (.validationError
          ("Light ID " ++ toString i ++ " is not valid. Must be 1-17.")) := by
  unfold LightManager.validate_light_id
  rw [if_pos (by simp; omega)]

/-- In-range ids pass `_validate_light_id`. -/
theorem validate_light_id_in_range (i : Int) (h : 1 ≤ i ∧ i ≤ 17) :
    LightManager.validate_light_id i = .ok () := by
  unfold LightManager.validate_light_id
  rw [if_neg (by simp; omega)]

/-- C7: for every light id outside [1,17], `control_light` and
`get_light_status` return a Validation-kind failure result
(`success = false`, `error_type = "HueValidationError"`) and make no bridge
HTTP call (their call trace is empty). -/
theorem invalid_light_id_no_bridge_call (b : BridgeBehavior)
    (req : LightControlRequest) (light_id : Int)
    (hreq : req.light_id < 1 ∨ req.light_id > 17)
    (hid : light_id < 1 ∨ light_id > 17) :
    ((LightManager.control_light b req).1.success = false ∧
      (LightManager.control_light b req).1.data
        = some (.errInfo "HueValidationError") ∧
      (LightManager.control_light b req).2 = []) ∧
    ((LightManager.get_light_status b light_id).1.success = false ∧
      (LightManager.get_light_status b light_id).1.data
        = some (.errInfo "HueValidationError") ∧
      (LightManager.get_light_status b light_id).2 = []) := by
  constructor
  · have hv := validate_light_id_out_of_range req.light_id hreq
    simp [LightManager.control_light, LightManager.control_light_run, hv,
      toHueResponse, HueErr.typeName]
  · have hv := validate_light_id_out_of_range light_id hid
    simp [LightManager.get_light_status, LightManager.get_light_status_run, hv,
      toHueResponse, HueErr.typeName]

/-- Witness for C7: id 18 on control, id 0 on status, over a healthy
bridge. -/
theorem invalid_light_id_no_bridge_call_witness :
    (({ light_id := 18, action := "on" } : LightControlRequest).light_id < 1 ∨
      ({ light_id := 18, action := "on" } : LightControlRequest).light_id > 17) ∧
    ((0 : Int) < 1 ∨ (0 : Int) > 17) ∧
    (((LightManager.control_light (healthyBridge extendedColorLightInfo)
          { light_id := 18, action := "on" }).1.success = false ∧
        (LightManager.control_light (healthyBridge extendedColorLightInfo)
          { light_id := 18, action := "on" }).1.data
          = some (.errInfo "HueValidationError") ∧
        (LightManager.control_light (healthyBridge extendedColorLightInfo)
          { light_id := 18, action := "on" }).2 = []) ∧
      ((LightManager.get_light_status (healthyBridge extendedColorLightInfo)
          0).1.success = false ∧
        (LightManager.get_light_status (healthyBridge extendedColorLightInfo)
          0).1.data = some (.errInfo "HueValidationError") ∧
        (LightManager.get_light_status (healthyBridge extendedColorLightInfo)
          0).2 = [])) :=
  ⟨by decide, by decide,
   invalid_light_id_no_bridge_call (healthyBridge extendedColorLightInfo)
     { light_id := 18, action := "on" } 0 (by decide) (by decide)⟩

/-- C3: every public manager operation — control single light, control room,
get light status, list all lights, discover bridge — converts every failure
its body raises (validation error, client error, device-info fetch failure,
all represented by `HueErr`) into a structured result with `success = false`,
the error message, and the error-kind tag under `data.error_type`.  Each
public operation is a total function into `HueResponse`, so no exception
propagates to the caller. -/
theorem public_ops_convert_failures (b1 b2 b3 b4 b5 : BridgeBehavior)
    (lreq : LightControlRequest) (rreq : RoomControlRequest) (light_id : Int)
    (e1 e2 e3 e4 e5 : HueErr)
    (h1 : (LightManager.control_light_run b1 lreq).1 = .error e1)
    (h2 : (LightManager.control_room_run b2 rreq).1 = .error e2)
    (h3 : (LightManager.get_light_status_run b3 light_id).1 = .error e3)
    (h4 : (LightManager.list_all_lights_run b4).1 = .error e4)
    (h5 : (LightManager.discover_bridge_run b5).1 = .error e5) :
    (LightManager.control_light b1 lreq).1
      = { success := false, message := e1.message
          data := some (.errInfo e1.typeName), lights_affected := none } ∧
    (LightManager.control_room b2 rreq).1
      = { success := false, message := e2.message
          data := some (.errInfo e2.typeName), lights_affected := none } ∧
    (LightManager.get_light_status b3 light_id).1
      = { success := false, message := e3.message
          data := some (.errInfo e3.typeName), lights_affected := none } ∧
    (LightManager.list_all_lights b4).1
      = { success := false, message := e4.message
          data := some (.errInfo e4.typeName), lights_affected := none } ∧
    (LightManager.discover_bridge b5).1
      = { success := false, message := e5.message
          data := some (.errInfo e5.typeName), lights_affected := none } := by
  refine ⟨?_, ?_, ?_, ?_, ?_⟩
  · simp [LightManager.control_light, h1, toHueResponse]
  · simp [LightManager.control_room, h2, toHueResponse]
  · simp [LightManager.get_light_status, h3, toHueResponse]
  · simp [LightManager.list_all_lights, h4, toHueResponse]
  · simp [LightManager.discover_bridge, h5, toHueResponse]

/-- Witness for C3: a bridge that is down makes the four bridge-touching
bodies raise a connection error, and an unknown room makes the room body
raise a validation error; each public operation returns the corresponding
structured failure. -/
theorem public_ops_convert_failures_witness :
    (LightManager.control_light_run (failingBridge (.connectionError "down"))
        { light_id := 1, action := "on" }).1
      = .error (.connectionError "down") ∧
    (LightManager.control_room_run (failingBridge (.connectionError "down"))
        { room := "attic", action := "on" }).1
      = .error (.validationError
          ("Unknown room 'attic'. Available rooms: "
            ++ pyStrList (ROOM_MAPPINGS.map Prod.fst))) ∧
    (LightManager.get_light_status_run (failingBridge (.connectionError "down"))
        2).1 = .error (.connectionError "down") ∧
    (LightManager.list_all_lights_run (failingBridge (.connectionError "down"))).1
      = .error (.connectionError "down") ∧
    (LightManager.discover_bridge_run (failingBridge (.connectionError "down"))).1
      = .error (.connectionError "down") ∧
    ((LightManager.control_light (failingBridge (.connectionError "down"))
        { light_id := 1, action := "on" }).1
      = { success := false, message := (HueErr.connectionError "down").message
          data := some (.errInfo (HueErr.connectionError "down").typeName)
          lights_affected := none } ∧
    (LightManager.control_room (failingBridge (.connectionError "down"))
        { room := "attic", action := "on" }).1
      = { success := false
          message := (HueErr.validationError
            ("Unknown room 'attic'. Available rooms: "
              ++ pyStrList (ROOM_MAPPINGS.map Prod.fst))).message
          data := some (.errInfo (HueErr.validationError
            ("Unknown room 'attic'. Available rooms: "
              ++ pyStrList (ROOM_MAPPINGS.map Prod.fst))).typeName)
          lights_affected := none } ∧
    (LightManager.get_light_status (failingBridge (.connectionError "down"))
        2).1
      = { success := false, message := (HueErr.connectionError "down").message
          data := some (.errInfo (HueErr.connectionError "down").typeName)
          lights_affected := none } ∧
    (LightManager.list_all_lights (failingBridge (.connectionError "down"))).1
      = { success := false, message := (HueErr.connectionError "down").message
          data := some (.errInfo (HueErr.connectionError "down").typeName)
          lights_affected := none } ∧
    (LightManager.discover_bridge (failingBridge (.connectionError "down"))).1
      = { success := false, message := (HueErr.connectionError "down").message
          data := some (.errInfo (HueErr.connectionError "down").typeName)
          lights_affected := none }) :=
  ⟨rfl, rfl, rfl, rfl, rfl,
   public_ops_convert_failures (failingBridge (.connectionError "down"))
     (failingBridge (.connectionError "down"))
     (failingBridge (.connectionError "down"))
     (failingBridge (.connectionError "down"))
     (failingBridge (.connectionError "down"))
     { light_id := 1, action := "on" } { room := "attic", action := "on" } 2
     _ _ _ _ _ rfl rfl rfl rfl rfl⟩

/-- Action `"off"` builds exactly `{on: false}` whatever else is supplied. -/
theorem build_light_state_off (brightness color_temp red green blue hue
    saturation : Option Int) (light_info : Option JValue) :
    LightManager.build_light_state "off" brightness color_temp red green blue
      hue saturation light_info = .ok { «on» := some false } := rfl

/-- Action `"on"` always builds a state with `on = true` and `bri` equal to
the supplied brightness (absent when none was supplied). -/
theorem build_light_state_on_fields (brightness color_temp red green blue hue
    saturation : Option Int) (light_info : Option JValue) (st : LightState)
    (h : LightManager.build_light_state "on" brightness color_temp red green
      blue hue saturation light_info = .ok st) :
    st.«on» = some true ∧ st.bri = brightness := by
  unfold LightManager.build_light_state at h
  (repeat' split at h) <;> simp_all <;> (subst h; simp)

/-- C5: a `"toggle"` request first reads the light's current state; the
action is resolved to `"off"` exactly when the current `state.on` is truthy
and to `"on"` otherwise, the issued PUT carries the state built from the
resolved action, and that state's `on` entry is the negation of the current
one. -/
theorem toggle_resolves_from_current_state (b : BridgeBehavior)
    (req : LightControlRequest) (info : JValue) (st : LightState)
    (hact : req.action = "toggle")
    (hid : 1 ≤ req.light_id ∧ req.light_id ≤ 17)
    (hfetch : b.get_light_state req.light_id = .ok info)
    (hbuild : LightManager.build_light_state (LightManager.toggle_resolved info)
        req.brightness req.color_temp req.red req.green req.blue req.hue
        req.saturation (some info) = .ok st) :
    LightManager.toggle_resolved info
      = (if ((info.getD "state" (.obj [])).getD "on" (.bool false)).truthy
          then "off" else "on") ∧
    (LightManager.control_light b req).2
      = [.get_light_state req.light_id, .control_light req.light_id st] ∧
    st.«on» = some (! ((info.getD "state" (.obj [])).getD "on"
      (.bool false)).truthy) := by
  have hval := validate_light_id_in_range req.light_id hid
  refine ⟨rfl, ?_, ?_⟩
  · simp only [LightManager.control_light, LightManager.control_light_run,
      hval, hfetch, hact]
    simp only [beq_self_eq_true, if_true, hbuild]
    cases hbc : b.control_light req.light_id st <;> simp [hbc]
  · by_cases hcur : ((info.getD "state" (.obj [])).getD "on" (.bool false)).truthy
    · have hres : LightManager.toggle_resolved info = "off" := by
        simp [LightManager.toggle_resolved, hcur]
      rw [hres, build_light_state_off] at hbuild
      injection hbuild with hst
      subst hst
      simp [hcur]
    · rw [Bool.not_eq_true] at hcur
      have hres : LightManager.toggle_resolved info = "on" := by
        simp [LightManager.toggle_resolved, hcur]
      rw [hres] at hbuild
      obtain ⟨hon, -⟩ := build_light_state_on_fields _ _ _ _ _ _ _ _ _ hbuild
      simp [hon, hcur]

/-- Witness for C5: toggling light 1, currently on, issues the off state. -/
theorem toggle_resolves_from_current_state_witness :
    ({ light_id := 1, action := "toggle" } : LightControlRequest).action
      = "toggle" ∧
    (1 ≤ ({ light_id := 1, action := "toggle" } : LightControlRequest).light_id ∧
      ({ light_id := 1, action := "toggle" } : LightControlRequest).light_id ≤ 17) ∧
    (healthyBridge extendedColorLightInfo).get_light_state
        ({ light_id := 1, action := "toggle" } : LightControlRequest).light_id
      = .ok extendedColorLightInfo ∧
    LightManager.build_light_state
        (LightManager.toggle_resolved extendedColorLightInfo)
        (some 200) (some 366) none none none none none
        (some extendedColorLightInfo)
      = .ok { «on» := some false } ∧
    (LightManager.toggle_resolved extendedColorLightInfo
        = (if ((extendedColorLightInfo.getD "state" (.obj [])).getD "on"
              (.bool false)).truthy then "off" else "on") ∧
      (LightManager.control_light (healthyBridge extendedColorLightInfo)
          { light_id := 1, action := "toggle" }).2
        = [.get_light_state 1, .control_light 1 { «on» := some false }] ∧
      (({ «on» := some false } : LightState)).«on»
        = some (! ((extendedColorLightInfo.getD "state" (.obj [])).getD "on"
            (.bool false)).truthy)) :=
  ⟨rfl, by decide, rfl, rfl,
   toggle_resolves_from_current_state (healthyBridge extendedColorLightInfo)
     { light_id := 1, action := "toggle" } extendedColorLightInfo
     { «on» := some false } rfl (by decide) rfl rfl⟩

/-- C10: a light or room control request constructed without explicit
optional values defaults `brightness` to 200 and `color_temp` to 366, and
every state built for action `"on"` from such a request therefore carries
`bri = 200`. -/
theorem default_brightness_in_built_state (light_id : Int)
    (action room : String) (info : Option JValue) (st : LightState)
    (hbuild : LightManager.build_light_state "on"
        ({ light_id := light_id, action := action } : LightControlRequest).brightness
        ({ light_id := light_id, action := action } : LightControlRequest).color_temp
        ({ light_id := light_id, action := action } : LightControlRequest).red
        ({ light_id := light_id, action := action } : LightControlRequest).green
        ({ light_id := light_id, action := action } : LightControlRequest).blue
        ({ light_id := light_id, action := action } : LightControlRequest).hue
        ({ light_id := light_id, action := action } : LightControlRequest).saturation
        info = .ok st) :
    ({ light_id := light_id, action := action } : LightControlRequest).brightness
      = some 200 ∧
    ({ light_id := light_id, action := action } : LightControlRequest).color_temp
      = some 366 ∧
    ({ room := room, action := action } : RoomControlRequest).brightness
      = some 200 ∧
    ({ room := room, action := action } : RoomControlRequest).color_temp
      = some 366 ∧
    st.bri = some 200 := by
  obtain ⟨-, hbri⟩ := build_light_state_on_fields _ _ _ _ _ _ _ _ _ hbuild
  exact ⟨rfl, rfl, rfl, rfl, hbri⟩

/-- Witness for C10: the default-constructed request for light 1 against an
extended color light yields a state with `bri = 200`. -/
theorem default_brightness_in_built_state_witness :
    LightManager.build_light_state "on"
        ({ light_id := 1, action := "on" } : LightControlRequest).brightness
        ({ light_id := 1, action := "on" } : LightControlRequest).color_temp
        ({ light_id := 1, action := "on" } : LightControlRequest).red
        ({ light_id := 1, action := "on" } : LightControlRequest).green
        ({ light_id := 1, action := "on" } : LightControlRequest).blue
        ({ light_id := 1, action := "on" } : LightControlRequest).hue
        ({ light_id := 1, action := "on" } : LightControlRequest).saturation
        (some extendedColorLightInfo)
      = .ok { «on» := some true, bri := some 200, ct := some 366 } ∧
    (({ light_id := 1, action := "on" } : LightControlRequest).brightness
        = some 200 ∧
      ({ light_id := 1, action := "on" } : LightControlRequest).color_temp
        = some 366 ∧
      ({ room := "kitchen", action := "on" } : RoomControlRequest).brightness
        = some 200 ∧
      ({ room := "kitchen", action := "on" } : RoomControlRequest).color_temp
        = some 366 ∧
      ({ «on» := some true, bri := some 200, ct := some 366 } : LightState).bri
        = some 200) :=
  ⟨rfl,
   default_brightness_in_built_state 1 "on" "kitchen"
     (some extendedColorLightInfo)
     { «on» := some true, bri := some 200, ct := some 366 } rfl⟩

/-- C4: for action `"on"` with a light-info document present, the built
state carries at most one color representation; `xy` is present exactly when
all three RGB channels are supplied and the light supports color, `hue`/`sat`
exactly when RGB is incomplete, both hue and saturation are supplied and the
light supports color, and `ct` exactly when a color temperature is supplied,
the light supports color temperature, and no higher-priority representation
was taken; a representation the advertised capabilities do not support is
never set. -/
theorem color_priority_and_capability
    (brightness color_temp red green blue hue saturation : Option Int)
    (info : JValue) (st : LightState)
    (h : LightManager.build_light_state "on" brightness color_temp red green
      blue hue saturation (some info) = .ok st) :
    ((if st.xy.isSome then 1 else 0)
      + (if st.hue.isSome || st.sat.isSome then 1 else 0)
      + (if st.ct.isSome then 1 else 0) ≤ 1) ∧
    (st.xy.isSome
      = (red.isSome && green.isSome && blue.isSome
          && LightManager.supports_color info)) ∧
    (st.hue.isSome
      = (!(red.isSome && green.isSome && blue.isSome)
          && (hue.isSome && saturation.isSome)
          && LightManager.supports_color info)) ∧
    (st.sat.isSome = st.hue.isSome) ∧
    (st.ct.isSome
      = (color_temp.isSome && LightManager.supports_color_temp info
          && (!(LightManager.supports_color info)
              || (!(red.isSome && green.isSome && blue.isSome)
                  && !(hue.isSome && saturation.isSome))))) ∧
    (st.xy.isSome = true → LightManager.supports_color info = true) ∧
    (st.hue.isSome = true → LightManager.supports_color info = true) ∧
    (st.ct.isSome = true → LightManager.supports_color_temp info = true) := by
  unfold LightManager.build_light_state at h
  (repeat' split at h) <;> simp_all <;>
    (try (subst h; simp_all)) <;>
    ((try rcases red with _ | r) <;> (try rcases green with _ | g) <;>
     (try rcases blue with _ | bl) <;> (try rcases hue with _ | hu) <;>
     (try rcases saturation with _ | sa) <;> simp_all)

/-- Witness for C4: an extended color light with RGB supplied yields `xy`
and omits `hue`/`sat`/`ct` even though a color temperature was supplied. -/
theorem color_priority_and_capability_witness :
    LightManager.build_light_state "on" (some 200) (some 366) (some 0)
        (some 0) (some 255) none none (some extendedColorLightInfo)
      = .ok xyOnlyState ∧
    (((if xyOnlyState.xy.isSome then 1 else 0)
        + (if xyOnlyState.hue.isSome || xyOnlyState.sat.isSome then 1 else 0)
        + (if xyOnlyState.ct.isSome then 1 else 0) ≤ 1) ∧
      (xyOnlyState.xy.isSome
        = ((some (0 : Int)).isSome && (some (0 : Int)).isSome
            && (some (255 : Int)).isSome
            && LightManager.supports_color extendedColorLightInfo)) ∧
      (xyOnlyState.hue.isSome
        = (!((some (0 : Int)).isSome && (some (0 : Int)).isSome
              && (some (255 : Int)).isSome)
            && ((none : Option Int).isSome && (none : Option Int).isSome)
            && LightManager.supports_color extendedColorLightInfo)) ∧
      (xyOnlyState.sat.isSome = xyOnlyState.hue.isSome) ∧
      (xyOnlyState.ct.isSome
        = ((some (366 : Int)).isSome
            && LightManager.supports_color_temp extendedColorLightInfo
            && (!(LightManager.supports_color extendedColorLightInfo)
                || (!((some (0 : Int)).isSome && (some (0 : Int)).isSome
                      && (some (255 : Int)).isSome)
                    && !((none : Option Int).isSome
                      && (none : Option Int).isSome))))) ∧
      (xyOnlyState.xy.isSome = true →
        LightManager.supports_color extendedColorLightInfo = true) ∧
      (xyOnlyState.hue.isSome = true →
        LightManager.supports_color extendedColorLightInfo = true) ∧
      (xyOnlyState.ct.isSome = true →
        LightManager.supports_color_temp extendedColorLightInfo = true)) :=
  ⟨rfl,
   color_priority_and_capability (some 200) (some 366) (some 0) (some 0)
     (some 255) none none extendedColorLightInfo xyOnlyState rfl⟩

/-- A key that `List.lookup` resolves is among the mapping's keys. -/
theorem keys_contains_of_lookup {β : Type} (l : List (String × β)) (k : String)
    (v : β) (h : l.lookup k = some v) :
    (l.map Prod.fst).contains k = true := by
  induction l with
  | nil => simp [List.lookup] at h
  | cons p rest ih =>
    obtain ⟨a, c⟩ := p
    rw [List.lookup] at h
    by_cases hk : (k == a) = true
    · simp [hk] at *
    · simp [hk] at h
      have hc := ih h
      simp at hc ⊢
      exact Or.inr hc

/-- The fan-out produces exactly one result entry per room light id. -/
theorem room_fanout_length (b : BridgeBehavior) (req : RoomControlRequest) :
    ∀ ids : List Int,
      (LightManager.room_fanout b req ids).1.length = ids.length := by
  intro ids
  induction ids with
  | nil => rfl
  | cons i rest ih => simp [LightManager.room_fanout, ih]

/-- C8: a room fan-out over a known room other than `"all"` aggregates the
per-light results: success iff zero per-light failures, the message reports
`Controlled <successCount>/<total> lights in <room>` with `<total>` the
room's light count, and the data payload carries the failure count together
with the full per-light result list (one entry per room light). -/
theorem room_aggregate (b : BridgeBehavior) (req : RoomControlRequest)
    (light_ids : List Int)
    (hroom : ROOM_MAPPINGS.lookup req.room = some (.lights light_ids))
    (hnotall : req.room ≠ "all") :
    (LightManager.control_room b req).1.success
      = (((LightManager.room_fanout b req light_ids).1.filter
          (fun r => ! r.success)).length == 0) ∧
    ((LightManager.control_room b req).1.success = true ↔
      ∀ r ∈ (LightManager.room_fanout b req light_ids).1, r.success = true) ∧
    (LightManager.control_room b req).1.message
      = "Controlled "
        ++ toString ((LightManager.room_fanout b req light_ids).1.filter
            (fun r => r.success)).length
        ++ "/" ++ toString light_ids.length ++ " lights in " ++ req.room ∧
    (LightManager.control_room b req).1.data
      = some (.room
          ((LightManager.room_fanout b req light_ids).1.filter
            (fun r => r.success)).length
          ((LightManager.room_fanout b req light_ids).1.filter
            (fun r => ! r.success)).length
          (LightManager.room_fanout b req light_ids).1) ∧
    (LightManager.room_fanout b req light_ids).1.length = light_ids.length := by
  have hval : LightManager.validate_room req.room = .ok () := by
    unfold LightManager.validate_room
    rw [if_pos (keys_contains_of_lookup _ _ _ hroom)]
  have hall : (req.room == "all") = false := by
    simp [hnotall]
  refine ⟨?_, ?_, ?_, ?_, room_fanout_length b req light_ids⟩ <;>
    simp [LightManager.control_room, LightManager.control_room_run, hval, hall,
      hroom, toHueResponse, List.length_eq_zero, List.filter_eq_nil_iff]

/-- Witness for C8: on the basement room (5 lights) with lights 14-16
unreachable, 3 of 5 per-light operations fail: the aggregate has
`success = false`, message `Controlled 2/5 lights in basement`, and
`failed_operations = 3` with the full 5-entry result list. -/
theorem room_aggregate_witness :
    ROOM_MAPPINGS.lookup
        ({ room := "basement", action := "on" } : RoomControlRequest).room
      = some (.lights [5, 6, 14, 15, 16]) ∧
    ({ room := "basement", action := "on" } : RoomControlRequest).room
      ≠ "all" ∧
    (LightManager.control_room basementDownBridge
        { room := "basement", action := "on" }).1.success = false ∧
    (LightManager.control_room basementDownBridge
        { room := "basement", action := "on" }).1.message
      = "Controlled 2/5 lights in basement" ∧
    ((LightManager.room_fanout basementDownBridge
        { room := "basement", action := "on" } [5, 6, 14, 15, 16]).1.filter
        (fun r => ! r.success)).length = 3 ∧
    (LightManager.control_room basementDownBridge
        { room := "basement", action := "on" }).1.data
      = some (.room 2 3
          (LightManager.room_fanout basementDownBridge
            { room := "basement", action := "on" } [5, 6, 14, 15, 16]).1) ∧
    ((LightManager.control_room basementDownBridge
        { room := "basement", action := "on" }).1.success
        = (((LightManager.room_fanout basementDownBridge
            { room := "basement", action := "on" } [5, 6, 14, 15, 16]).1.filter
            (fun r => ! r.success)).length == 0) ∧
      (LightManager.room_fanout basementDownBridge
        { room := "basement", action := "on" } [5, 6, 14, 15, 16]).1.length
        = ([5, 6, 14, 15, 16] : List Int).length) :=
  ⟨rfl, by decide, by rfl, by rfl, by rfl, by rfl,
   (room_aggregate basementDownBridge { room := "basement", action := "on" }
      [5, 6, 14, 15, 16] rfl (by decide)).1,
   (room_aggregate basementDownBridge { room := "basement", action := "on" }
      [5, 6, 14, 15, 16] rfl (by decide)).2.2.2.2⟩
